import Mathlib

/-!
Verification of the scoring core of the life-alignment-api repository.

The repository has two Python source files:
  * `generate_report_json.py` — payload normalisation (`normalize_inputs`
    and its helpers), the priority-gap calculator (`RANK_WEIGHT`,
    `rating_to_strength`, `compute_priority_gap`), and the top-gap
    selection (`find_top_gaps`);
  * `app.py` — the HTTP boundary (`_normalise_payload` and the
    `/generate` handler `generate_report`).

This file gives a shallow embedding of those functions and proves or
refutes the specification's claims about them.  Python floats are
modelled as exact rationals (every number occurring in the scoring path
is small and exactly representable), Python ints as `ℤ`, Python values
as the inductive `PyVal` below, and exceptions as `Except` results.
-/

namespace LifeAlignment

/-- `RANK_WEIGHT = {1: 4, 2: 3, 3: 2, 4: 1}` from generate_report_json.py,
a Python dict modelled as a map to `Option`; the source's
`RANK_WEIGHT.get(rank, 1)` is `(RANK_WEIGHT rank).getD 1`. -/
def RANK_WEIGHT (rank : ℤ) : Option ℤ :=
  if rank = 1 then some 4
  else if rank = 2 then some 3
  else if rank = 3 then some 2
  else if rank = 4 then some 1
  else none

/-- `rating_to_strength(score_0_to_5)`: `return float(score_0_to_5) * 5.0`.
Maps the 0..5 rating scale onto the report's 0..25 "raw score" scale. -/
def rating_to_strength (score : ℚ) : ℚ := score * 5

/-- `compute_priority_gap(score, rank)`:
`weight = RANK_WEIGHT.get(int(rank), 1); gap = (5.0 - float(score)) * weight`.
`score` is on the 0..5 rating scale (not the 0..25 raw scale). -/
def compute_priority_gap (score : ℚ) (rank : ℤ) : ℚ :=
  (5 - score) * (((RANK_WEIGHT rank).getD 1 : ℤ) : ℚ)
/-! ## A model of the Python values handled by the normaliser

JSON payloads decode to nested dicts (string keys), lists, strings,
numbers, booleans and null.  Exceptions (`ValueError` from failed
numeric conversion, `TypeError` from conversion or iteration of an
unsuitable type, `AttributeError` from `.get` on a non-dict,
FastAPI's `HTTPException`) are modelled as `Except PyErr` results. -/

inductive PyErr where
  | valueError
  | typeError
  | attributeError
  | httpError (status : ℕ)
deriving Repr, DecidableEq

inductive PyVal where
  | none
  | bool (b : Bool)
  | int (n : ℤ)
  | float (q : ℚ)
  | str (s : String)
  | list (xs : List PyVal)
  | dict (xs : List (String × PyVal))

abbrev PyDict := List (String × PyVal)

/-- Python truthiness: `bool(v)`. -/
def pyTruthy : PyVal → Bool
  | .none => false
  | .bool b => b
  | .int n => n ≠ 0
  | .float q => q ≠ 0
  | .str s => s ≠ ""
  | .list xs => !xs.isEmpty
  | .dict xs => !xs.isEmpty

/-- The test `v in (None, "")` / `v in ("", None)` used by the parsing
helpers: true exactly for `None` and the empty string. -/
def isEmptyStrOrNone : PyVal → Bool
  | .none => true
  | .str s => s = ""
  | _ => false

/-- Digits to a natural number, most significant first. -/
def digitsToNat (cs : List Char) : ℕ :=
  cs.foldl (fun a c => a * 10 + (c.toNat - 48)) 0

/-- Python `int(s)` on a string: optional sign followed by digits
(surrounding whitespace and underscore separators are not modelled;
the payload strings of interest are plain literals). -/
def parseIntLit (s : String) : Option ℤ :=
  match s.toList with
  | [] => Option.none
  | c :: rest =>
    let body := if c = '-' ∨ c = '+' then rest else c :: rest
    if !body.isEmpty ∧ body.all Char.isDigit then
      some ((if c = '-' then -1 else 1) * (digitsToNat body : ℤ))
    else Option.none

/-- Python `float(s)` on a string: optional sign, then digits with an
optional decimal point (`"3"`, `"3.5"`, `".5"`, `"5."`).  Exponent,
`inf`/`nan` and whitespace forms are not modelled; the strings of
interest are plain literals or non-numeric text. -/
def parseFloatLit (s : String) : Option ℚ :=
  match s.toList with
  | [] => Option.none
  | c :: rest =>
    let body := if c = '-' ∨ c = '+' then rest else c :: rest
    let sgn : ℚ := if c = '-' then -1 else 1
    let ip := body.takeWhile (fun d => d ≠ '.')
    match body.drop ip.length with
    | [] =>
      if !ip.isEmpty ∧ ip.all Char.isDigit then some (sgn * (digitsToNat ip : ℚ))
      else Option.none
    | _ :: fp =>
      if ip.all Char.isDigit ∧ fp.all Char.isDigit ∧ (!ip.isEmpty ∨ !fp.isEmpty) then
        some (sgn * ((digitsToNat ip : ℚ) + (digitsToNat fp : ℚ) / (10 ^ fp.length)))
      else Option.none

/-- Truncation toward zero, the behaviour of Python `int()` on a float. -/
def ratTrunc (q : ℚ) : ℤ := if 0 ≤ q then Int.floor q else Int.ceil q

/-- Python `round(q)` with no digits argument: nearest integer, ties to
even (exact rational model). -/
def pyRound (q : ℚ) : ℤ :=
  let f := Int.floor q
  let r := q - (f : ℚ)
  if r < 1 / 2 then f
  else if 1 / 2 < r then f + 1
  else if 2 ∣ f then f else f + 1

/-- Python `float(v)` on an arbitrary value. -/
def pyFloat : PyVal → Except PyErr ℚ
  | .bool b => .ok (if b then 1 else 0)
  | .int n => .ok (n : ℚ)
  | .float q => .ok q
  | .str s =>
    match parseFloatLit s with
    | some q => .ok q
    | Option.none => .error .valueError
  | _ => .error .typeError

/-- Python `int(v)` on an arbitrary value. -/
def pyInt : PyVal → Except PyErr ℤ
  | .bool b => .ok (if b then 1 else 0)
  | .int n => .ok n
  | .float q => .ok (ratTrunc q)
  | .str s =>
    match parseIntLit s with
    | some n => .ok n
    | Option.none => .error .valueError
  | _ => .error .typeError

/-- Python `int(float(v))`. -/
def intOfFloatVal (v : PyVal) : Except PyErr ℤ := do
  let q ← pyFloat v
  pure (ratTrunc q)

/-- Python iteration `for v in x`: lists yield elements, strings yield
one-character strings, dicts yield their keys; other values raise
`TypeError`. -/
def pyIter : PyVal → Except PyErr (List PyVal)
  | .list xs => .ok xs
  | .str s => .ok (s.toList.map (fun c => .str (String.singleton c)))
  | .dict xs => .ok (xs.map (fun kv => .str kv.1))
  | _ => .error .typeError

/-- `dict.get(k, d)` on an association list (payload dicts have no
duplicate keys after JSON decoding). -/
def dictGetD (xs : PyDict) (k : String) (d : PyVal) : PyVal :=
  match xs.lookup k with
  | some v => v
  | Option.none => d

/-- `v.get(k, d)`: valid on dicts, `AttributeError` otherwise. -/
def pyGetD (v : PyVal) (k : String) (d : PyVal) : Except PyErr PyVal :=
  match v with
  | .dict xs => .ok (dictGetD xs k d)
  | _ => .error .attributeError

/-! ## The normaliser of generate_report_json.py -/

def PILLARS : List String := ["health", "wealth", "self", "social"]

def SUBTHEMES (pillar : String) : List String :=
  if pillar = "health" then
    ["Physical Energy", "Mental Health", "Workload / Balance", "Preventative Care"]
  else if pillar = "wealth" then
    ["Income Stability", "Retirement & Pensions", "Lifestyle & Security", "Habits & Knowledge"]
  else if pillar = "self" then
    ["Purpose & Direction", "Growth & Learning", "Mindset & Resilience", "Joy & Fulfilment"]
  else if pillar = "social" then
    ["Family & Relationships", "Professional Networks", "Community & Belonging", "Contribution & Impact"]
  else []

/-- One element conversion of `_as_int_list`: `0` for `""`/`None`, else
`int(v)`, else `int(round(float(v)))`, else `0` (all failures caught). -/
def asIntElem (v : PyVal) : ℤ :=
  if isEmptyStrOrNone v then 0
  else
    match pyInt v with
    | .ok n => n
    | .error _ =>
      match pyFloat v with
      | .ok q => pyRound q
      | .error _ => 0

/-- `_as_int_list(x)`: iterates `x or []`; iteration of a truthy
non-iterable value raises `TypeError` (uncaught in the source). -/
def as_int_list (x : PyVal) : Except PyErr (List ℤ) :=
  if pyTruthy x then (pyIter x).map (List.map asIntElem) else .ok []

/-- One arm of `_try_new_shape`: if `data[key]` is a dict, run
`_as_int_list(data[key].get(pillar))` and keep it only at length 4. -/
def newShapeList (data : PyDict) (key pillar : String) :
    Except PyErr (Option (List ℤ)) :=
  match dictGetD data key .none with
  | .dict m => do
    let xs ← as_int_list (dictGetD m pillar .none)
    pure (if xs.length = 4 then some xs else Option.none)
  | _ => pure Option.none

/-- `_try_new_shape(data, pillar)`:
`data["ratings"][pillar]` and `data["ranks_per_subtheme"][pillar]`. -/
def try_new_shape (data : PyDict) (pillar : String) :
    Except PyErr (Option (List ℤ) × Option (List ℤ)) := do
  let ratings ← newShapeList data "ratings" pillar
  let ranks ← newShapeList data "ranks_per_subtheme" pillar
  pure (ratings, ranks)

/-- Python `str.lower()` (ASCII suffices for the subtheme labels). -/
def pyLower (s : String) : String := s.map Char.toLower

/-- The first candidate key present in the scores dict, if any. -/
def firstKeyHit (scores : PyDict) : List String → Option PyVal
  | [] => Option.none
  | k :: rest =>
    match scores.lookup k with
    | some v => some v
    | Option.none => firstKeyHit scores rest

/-- One sub-label of the legacy dict shape: try the label itself, its
lowercased-underscored form, and its lowercased form; missing or
`None`/`""` gives 0, anything else goes through `int(float(v))`,
whose failures are NOT caught in the source. -/
def legacyScoreOfLabel (scores : PyDict) (sublabel : String) : Except PyErr ℤ :=
  let candidates := [sublabel, (pyLower sublabel).replace " " "_", pyLower sublabel]
  match firstKeyHit scores candidates with
  | Option.none => .ok 0
  | some v => if isEmptyStrOrNone v then .ok 0 else intOfFloatVal v

/-- The ratings branch of `_try_legacy_shape`: a nonempty sub-label
dict goes through the candidate keys, a 4-list through
`_as_int_list`, anything else yields nothing. -/
def legacyRatings (scores : PyVal) (pillar : String) :
    Except PyErr (Option (List ℤ)) :=
  match scores with
  | .dict m =>
    if m.isEmpty then pure (Option.none : Option (List ℤ))
    else do
      let vals ← (SUBTHEMES pillar).mapM (legacyScoreOfLabel m)
      pure (if vals.length = 4 then some vals else Option.none)
  | .list xs =>
    if xs.length = 4 then do
      let r ← as_int_list (.list xs)
      pure (some r)
    else pure Option.none
  | _ => pure (Option.none : Option (List ℤ))

/-- The ranks branch of `_try_legacy_shape`: a present pillar-level
value whose `int()` lies in 1..4 yields the constant `[2, 2, 2, 2]`
(conversion failures are caught and yield nothing). -/
def legacyRanks (pr : PyVal) : Option (List ℤ) :=
  match pr with
  | .none => (Option.none : Option (List ℤ))
  | v =>
    match pyInt v with
    | .ok n =>
      if n = 1 ∨ n = 2 ∨ n = 3 ∨ n = 4 then some [2, 2, 2, 2] else Option.none
    | .error _ => Option.none

/-- `_try_legacy_shape(data, pillar)`: `data["scores"][pillar]` as a
sub-label dict or a 4-list, and `data["ranks"][pillar]` as a single
pillar-level rank which, when valid (1..4), yields the constant
per-subtheme ranks `[2, 2, 2, 2]`. -/
def try_legacy_shape (data : PyDict) (pillar : String) :
    Except PyErr (Option (List ℤ) × Option (List ℤ)) := do
  let scores ← pyGetD (dictGetD data "scores" (.dict [])) pillar (.dict [])
  let ratings ← legacyRatings scores pillar
  let pr ← pyGetD (dictGetD data "ranks" (.dict [])) pillar .none
  pure (ratings, legacyRanks pr)

/-- The loop body of `_fallback_guess`:
`v = data.get(k); ratings.append(0 if v in (None, "") else int(float(v)))`,
whose `int(float(v))` failures are NOT caught in the source. -/
def looseVal (data : PyDict) (k : String) : Except PyErr ℤ :=
  let v := dictGetD data k .none
  if isEmptyStrOrNone v then pure 0 else intOfFloatVal v

/-- `_fallback_guess(data, pillar)`: the loop over the loose keys
`loose_keys[:4] = [pillar_1, ..., pillar_4]`, unrolled.  Never
produces ranks. -/
def fallback_guess (data : PyDict) (pillar : String) :
    Except PyErr (Option (List ℤ) × Option (List ℤ)) := do
  let r1 ← looseVal data (pillar ++ "_1")
  let r2 ← looseVal data (pillar ++ "_2")
  let r3 ← looseVal data (pillar ++ "_3")
  let r4 ← looseVal data (pillar ++ "_4")
  let ratings := [r1, r2, r3, r4]
  pure (if ratings.length = 4
    then ((some ratings, Option.none) : Option (List ℤ) × Option (List ℤ))
    else (Option.none, Option.none))

/-- Python `a or b` on the optional rating/rank lists (`None` and the
empty list are falsy; a successful probe is a list). -/
def pyOrList (a b : Option (List ℤ)) : Option (List ℤ) :=
  match a with
  | some xs => if xs.isEmpty then b else some xs
  | Option.none => b

/-- `if not r or len(r) != 4: r = dflt`. -/
def guard4 (r : Option (List ℤ)) (dflt : List ℤ) : List ℤ :=
  match r with
  | some xs => if xs.isEmpty ∨ xs.length ≠ 4 then dflt else xs
  | Option.none => dflt

/-- The per-pillar body of `normalize_inputs`: probe the three shapes
in order, combine with `or`, and default to `[0,0,0,0]` ratings and
`[1,2,3,4]` ranks. -/
def normalizePillar (data : PyDict) (pillar : String) :
    Except PyErr (List ℤ × List ℤ) := do
  let rNew ← try_new_shape data pillar
  let rOld ← try_legacy_shape data pillar
  let rFb ← fallback_guess data pillar
  let r := guard4 (pyOrList (pyOrList rNew.1 rOld.1) rFb.1) [0, 0, 0, 0]
  let rk := guard4 (pyOrList (pyOrList rNew.2 rOld.2) rFb.2) [1, 2, 3, 4]
  pure (r, rk)

/-- `normalize_inputs(data)`: the loop over `PILLARS`, building the
`ratings` and `ranks` dicts (association lists in pillar order). -/
def normalize_inputs (data : PyDict) :
    Except PyErr (List (String × List ℤ) × List (String × List ℤ)) := do
  let h ← normalizePillar data "health"
  let w ← normalizePillar data "wealth"
  let se ← normalizePillar data "self"
  let so ← normalizePillar data "social"
  pure ([("health", h.1), ("wealth", w.1), ("self", se.1), ("social", so.1)],
        [("health", h.2), ("wealth", w.2), ("self", se.2), ("social", so.2)])

/-! ## Top-gap selection (`find_top_gaps`) -/

/-- The scan underlying `np.argmax`: runs over the tail with the
running best index `bi` and best value `bv`, replacing the best only on
a strict improvement (so the first maximum wins). -/
def argmaxAux : List ℚ → ℕ → ℕ → ℚ → ℕ
  | [], _, bi, _ => bi
  | x :: rest, i, bi, bv =>
    if bv < x then argmaxAux rest (i + 1) i x else argmaxAux rest (i + 1) bi bv

/-- `int(np.argmax(xs))`: the index of the first maximum (0 on the
empty list; numpy raises there, but `find_top_gaps` always passes four
gaps). -/
def argmaxFirst : List ℚ → ℕ
  | [] => 0
  | x :: rest => argmaxAux rest 1 0 x

/-- `[compute_priority_gap(s, rr) for s, rr in zip(r, rk)]`. -/
def pillarGaps (r rk : List ℤ) : List ℚ :=
  (r.zip rk).map (fun p => compute_priority_gap (p.1 : ℚ) p.2)

/-- Dict indexing `d[pillar]` on the normalised ratings/ranks; the
normaliser populates every pillar, so the default is never reached in
the pipeline. -/
def lookupPillar (d : List (String × List ℤ)) (pillar : String) : List ℤ :=
  match d.lookup pillar with
  | some xs => xs
  | Option.none => []

/-- `find_top_gaps(ratings, ranks)`: per pillar the first sub-theme of
maximal gap, and the overall best, seeded with `("", -1, -1.0)` and
updated only on strict improvement. -/
def find_top_gaps (ratings ranks : List (String × List ℤ)) :
    List (String × ℤ × ℚ) × (String × ℤ × ℚ) :=
  PILLARS.foldl
    (fun acc pillar =>
      let gaps := pillarGaps (lookupPillar ratings pillar) (lookupPillar ranks pillar)
      let bestIdx := argmaxFirst gaps
      let bestGap := gaps.getD bestIdx 0
      (acc.1 ++ [(pillar, (bestIdx : ℤ), bestGap)],
       if acc.2.2.2 < bestGap then (pillar, (bestIdx : ℤ), bestGap) else acc.2))
    ([], ("", -1, -1))

/-- `v` is the value at position `t` of `g`, every earlier position is
strictly smaller, and no position exceeds it: `t` is the position of
the first maximum of `g` and `v` that maximum. -/
def isFirstMaxAt (g : List ℚ) (t : ℕ) (v : ℚ) : Prop :=
  t < g.length ∧ v = g.getD t 0 ∧
    (∀ j, j < t → g.getD j 0 < v) ∧ (∀ j, j < g.length → g.getD j 0 ≤ v)

instance (g : List ℚ) (t : ℕ) (v : ℚ) : Decidable (isFirstMaxAt g t v) := by
  unfold isFirstMaxAt; infer_instance

/-- The overall-best update step of `find_top_gaps`:
`if gaps[best_idx] > overall[2]: overall = (pillar, best_idx, gap)`. -/
def selBest (acc e : String × ℤ × ℚ) : String × ℤ × ℚ :=
  if acc.2.2 < e.2.2 then e else acc

/-- Position of a pillar in the fixed `PILLARS` order (4 otherwise). -/
def pillarPos (p : String) : ℕ :=
  if p = "health" then 0
  else if p = "wealth" then 1
  else if p = "self" then 2
  else if p = "social" then 3
  else 4

/-- The gap block of the b-th pillar among four explicit gap lists. -/
def gapBlock (g1 g2 g3 g4 : List ℚ) (b : ℕ) : List ℚ :=
  if b = 0 then g1 else if b = 1 then g2 else if b = 2 then g3 else g4

/-- Re-encoding of the normaliser's canonical output as a payload in
the new shape: `{"ratings": {...}, "ranks_per_subtheme": {...}}`. -/
def canonicalPayload (ratings ranks : List (String × List ℤ)) : PyDict :=
  [("ratings", .dict (ratings.map (fun pr => (pr.1, .list (pr.2.map PyVal.int))))),
   ("ranks_per_subtheme", .dict (ranks.map (fun pr => (pr.1, .list (pr.2.map PyVal.int)))))]

/-! ## The HTTP boundary of app.py -/

/-- Python `str.strip()`: drop whitespace at both ends (ASCII
whitespace suffices for the email strings of interest). -/
def pyStrip (s : String) : String :=
  String.mk (((s.toList.dropWhile Char.isWhitespace).reverse.dropWhile
    Char.isWhitespace).reverse)

/-- The membership test `"@" in email`. -/
def hasAtSign (s : String) : Bool := s.toList.contains '@'

/-- The twice-occurring expression `(data.get("email") or "").strip()`
of app.py; `.strip()` on a truthy non-string value raises. -/
def extractEmail (data : PyDict) : Except PyErr String :=
  let v := dictGetD data "email" .none
  match (if pyTruthy v then v else .str "") with
  | .str s => .ok (pyStrip s)
  | _ => .error .attributeError

/-- `_normalise_payload(data)` of app.py: requires a stripped email
containing `"@"`, else `HTTPException(status_code=422)`. -/
def app_normalise_payload (data : PyDict) : Except PyErr PyDict := do
  let email ← extractEmail data
  if email = "" ∨ ¬ hasAtSign email then .error (.httpError 422)
  else pure data

/-- The boundary phase of the `/generate` handler (app.py
`generate_report`), after a successful JSON parse of the body: either
an HTTP error status raised before any report computation, or the
payload as it is handed on to `_call_report_builder`.  Codes:
`HTTPException`s pass through; any other exception from
`_normalise_payload` is re-raised as 422; the final empty-email
re-check raises 422.

CAUTION — this embeds the handler as evidently INTENDED, not as
committed.  In the committed app.py the debug lines 217-218
(`import json, sys` indented 12 spaces after an 8-space statement,
then a `print` dedented to 4 spaces inside the still-open `try:`)
are a fatal `IndentationError`: the module never imports and the
`/generate` endpoint never runs at all.  This definition deletes
those two stray pasted lines (whose only evident intent is a no-op
debug print) to capture the boundary logic the rest of the handler
implements; the import-time failure itself is the code bug recorded
against claim C5.  Report building, emailing and the success
response lie beyond the boundary modelled here. -/
def generate_report (payload : PyDict) : Except ℕ PyDict :=
  match app_normalise_payload payload with
  | .error (.httpError c) => .error c
  | .error _ => .error 422
  | .ok data =>
    match extractEmail data with
    | .ok email => if email = "" then .error 422 else .ok data
    | .error _ => .error 500

theorem argmaxAux_spec (xs : List ℚ) : ∀ (i bi : ℕ) (bv : ℚ),
    (argmaxAux xs i bi bv = bi ∧ ∀ k, k < xs.length → xs.getD k 0 ≤ bv) ∨
    (∃ t, t < xs.length ∧ argmaxAux xs i bi bv = i + t ∧ bv < xs.getD t 0 ∧
      (∀ k, k < t → xs.getD k 0 < xs.getD t 0) ∧
      (∀ k, k < xs.length → xs.getD k 0 ≤ xs.getD t 0)) := by
  induction xs with
  | nil =>
    intro i bi bv
    left
    exact ⟨rfl, fun k hk => absurd hk (by simp)⟩
  | cons x rest ih =>
    intro i bi bv
    by_cases hx : bv < x
    · have hstep : argmaxAux (x :: rest) i bi bv = argmaxAux rest (i + 1) i x := by
        simp [argmaxAux, hx]
      right
      rcases ih (i + 1) i x with ⟨heq, hub⟩ | ⟨t, ht, heq, hgt, hpre, hub⟩
      · refine ⟨0, by simp, by rw [hstep, heq, Nat.add_zero], by simpa using hx, ?_, ?_⟩
        · intro k hk; omega
        · intro k hk
          cases k with
          | zero => simp
          | succ j =>
            simpa using hub j (by simpa using hk)
      · refine ⟨t + 1, by simpa using ht, by rw [hstep, heq]; omega, ?_, ?_, ?_⟩
        · simpa using lt_trans hx hgt
        · intro k hk
          cases k with
          | zero => simpa using hgt
          | succ j => simpa using hpre j (by omega)
        · intro k hk
          cases k with
          | zero => simpa using le_of_lt hgt
          | succ j => simpa using hub j (by simpa using hk)
    · have hstep : argmaxAux (x :: rest) i bi bv = argmaxAux rest (i + 1) bi bv := by
        simp [argmaxAux, hx]
      push_neg at hx
      rcases ih (i + 1) bi bv with ⟨heq, hub⟩ | ⟨t, ht, heq, hgt, hpre, hub⟩
      · left
        refine ⟨by rw [hstep, heq], ?_⟩
        intro k hk
        cases k with
        | zero => simpa using hx
        | succ j => simpa using hub j (by simpa using hk)
      · right
        refine ⟨t + 1, by simpa using ht, by rw [hstep, heq]; omega, by simpa using hgt, ?_, ?_⟩
        · intro k hk
          cases k with
          | zero => simpa using lt_of_le_of_lt hx hgt
          | succ j => simpa using hpre j (by omega)
        · intro k hk
          cases k with
          | zero => simpa using le_trans hx (le_of_lt hgt)
          | succ j => simpa using hub j (by simpa using hk)

/-- `argmaxFirst` returns the position of the first maximum. -/
theorem argmaxFirst_isFirstMax (xs : List ℚ) (hne : xs ≠ []) :
    isFirstMaxAt xs (argmaxFirst xs) (xs.getD (argmaxFirst xs) 0) := by
  cases xs with
  | nil => exact absurd rfl hne
  | cons x rest =>
    have hfirst : argmaxFirst (x :: rest) = argmaxAux rest 1 0 x := rfl
    rcases argmaxAux_spec rest 1 0 x with ⟨heq, hub⟩ | ⟨t, ht, heq, hgt, hpre, hub⟩
    · have h0 : argmaxFirst (x :: rest) = 0 := by rw [hfirst, heq]
      refine ⟨by simp [h0], rfl, ?_, ?_⟩
      · intro j hj; rw [h0] at hj; omega
      · intro j hj
        rw [h0]
        cases j with
        | zero => simp
        | succ j => simpa using hub j (by simpa using hj)
    · have h1 : argmaxFirst (x :: rest) = t + 1 := by rw [hfirst, heq]; omega
      refine ⟨by simp [h1]; omega, rfl, ?_, ?_⟩
      · intro j hj
        rw [h1] at hj
        rw [h1]
        cases j with
        | zero => simpa using hgt
        | succ j => simpa using hpre j (by omega)
      · intro j hj
        rw [h1]
        cases j with
        | zero => simpa using le_of_lt hgt
        | succ j => simpa using hub j (by simpa using hj)


/-- The four rank weights, as facts usable by `simp`. -/
theorem rank_weight_cases (rank : ℤ) :
    (rank = 1 → (RANK_WEIGHT rank).getD 1 = 4) ∧
    (rank = 2 → (RANK_WEIGHT rank).getD 1 = 3) ∧
    (rank = 3 → (RANK_WEIGHT rank).getD 1 = 2) ∧
    (rank = 4 → (RANK_WEIGHT rank).getD 1 = 1) := by
  refine ⟨?_, ?_, ?_, ?_⟩ <;> rintro rfl <;> rfl

/-- The weight is always between 1 and 4, whatever the rank. -/
theorem rank_weight_bounds (rank : ℤ) :
    1 ≤ (RANK_WEIGHT rank).getD 1 ∧ (RANK_WEIGHT rank).getD 1 ≤ 4 := by
  unfold RANK_WEIGHT
  split_ifs <;> simp

/-- C1 (counterexample): the claim states
`gap(raw_score, rank) = (25 - raw_score) * weight(rank) / 4` and
`gap(0, 1) = 25`.  At the concrete input raw score 0 (rating 0) with
rank 1, the claimed formula yields 25, but `compute_priority_gap`
computes `(5 - 0) * 4 = 20 ≠ 25`. -/
theorem C1_counterexample :
    compute_priority_gap 0 1 = 20 ∧
    (25 - rating_to_strength 0) * 4 / 4 = 25 ∧
    (20 : ℚ) ≠ 25 := by
  refine ⟨?_, by norm_num [rating_to_strength], by norm_num⟩
  norm_num [compute_priority_gap, RANK_WEIGHT]

/-- C1 (amended): for every rating and every rank in {1,2,3,4}, the
priority gap of a sub-theme equals `(25 - raw_score) * weight(rank) / 5`
(where `raw_score = rating_to_strength score` is the 0..25-scale score),
with weight mapping rank 1 to 4, 2 to 3, 3 to 2 and 4 to 1; in
particular the gap of the weakest, most-important sub-theme
(raw score 0, rank 1) is exactly 20, not 25. -/
theorem C1_gap_formula (score : ℚ) (rank : ℤ)
    (hrank : rank = 1 ∨ rank = 2 ∨ rank = 3 ∨ rank = 4) :
    compute_priority_gap score rank
      = (25 - rating_to_strength score) * (((RANK_WEIGHT rank).getD 1 : ℤ) : ℚ) / 5 ∧
    compute_priority_gap 0 1 = 20 := by
  constructor
  · rcases hrank with rfl | rfl | rfl | rfl <;>
      · simp only [compute_priority_gap, rating_to_strength, RANK_WEIGHT]
        norm_num
        ring
  · norm_num [compute_priority_gap, RANK_WEIGHT]

/-- Witness for C1_gap_formula at score 1, rank 2. -/
theorem C1_gap_formula_witness :
    compute_priority_gap 1 2
      = (25 - rating_to_strength 1) * (((RANK_WEIGHT 2).getD 1 : ℤ) : ℚ) / 5 ∧
    compute_priority_gap 0 1 = 20 :=
  C1_gap_formula 1 2 (Or.inr (Or.inl rfl))

/-- C7: for every fixed rank in {1,2,3,4} the gap is strictly decreasing
in the score (hence in the raw score), and for every fixed raw score
strictly below 25 the gap is strictly increasing as the rank weight
increases: rank 1 yields a larger gap than rank 2, which yields a larger
gap than rank 3, which yields a larger gap than rank 4. -/
theorem C7_gap_monotone (rank : ℤ) (s1 s2 s : ℚ)
    (hrank : rank = 1 ∨ rank = 2 ∨ rank = 3 ∨ rank = 4) :
    (s1 < s2 → compute_priority_gap s2 rank < compute_priority_gap s1 rank) ∧
    (rating_to_strength s < 25 →
      compute_priority_gap s 2 < compute_priority_gap s 1 ∧
      compute_priority_gap s 3 < compute_priority_gap s 2 ∧
      compute_priority_gap s 4 < compute_priority_gap s 3) := by
  have hs : rating_to_strength s < 25 → s < 5 := by
    simp only [rating_to_strength]; intro h; linarith
  constructor
  · intro h12
    rcases hrank with rfl | rfl | rfl | rfl <;>
      · simp only [compute_priority_gap, RANK_WEIGHT]
        norm_num
        linarith
  · intro h25
    have h5 : s < 5 := hs h25
    refine ⟨?_, ?_, ?_⟩ <;>
      · simp only [compute_priority_gap, RANK_WEIGHT]
        norm_num
        linarith

/-- Witness for C7_gap_monotone at rank 1, scores 0 < 1, fixed score 2. -/
theorem C7_gap_monotone_witness :
    ((0 : ℚ) < 1 → compute_priority_gap 1 1 < compute_priority_gap 0 1) ∧
    (rating_to_strength 2 < 25 →
      compute_priority_gap 2 2 < compute_priority_gap 2 1 ∧
      compute_priority_gap 2 3 < compute_priority_gap 2 2 ∧
      compute_priority_gap 2 4 < compute_priority_gap 2 3) :=
  C7_gap_monotone 1 0 1 2 (Or.inl rfl)

/-- C8: for every rating whose raw score lies in [0,25] and every rank
in {1,2,3,4}, the computed gap lies in [0,25] (it in fact lies in
[0,20]); and at raw score 25 (rating 5) the gap is 0 for every rank. -/
theorem C8_gap_range (s : ℚ) (rank : ℤ)
    (hs0 : 0 ≤ rating_to_strength s) (hs25 : rating_to_strength s ≤ 25)
    (hrank : rank = 1 ∨ rank = 2 ∨ rank = 3 ∨ rank = 4) :
    (0 ≤ compute_priority_gap s rank ∧ compute_priority_gap s rank ≤ 25) ∧
    (∀ r : ℤ, compute_priority_gap 5 r = 0) := by
  have hlo : (0 : ℚ) ≤ s := by
    simp only [rating_to_strength] at hs0; linarith
  have hhi : s ≤ 5 := by
    simp only [rating_to_strength] at hs25; linarith
  constructor
  · rcases hrank with rfl | rfl | rfl | rfl <;>
      · simp only [compute_priority_gap, RANK_WEIGHT]
        norm_num
        constructor <;> linarith
  · intro r
    simp [compute_priority_gap]

/-- Witness for C8_gap_range at rating 3, rank 2. -/
theorem C8_gap_range_witness :
    (0 ≤ compute_priority_gap 3 2 ∧ compute_priority_gap 3 2 ≤ 25) ∧
    (∀ r : ℤ, compute_priority_gap 5 r = 0) :=
  C8_gap_range 3 2 (by norm_num [rating_to_strength])
    (by norm_num [rating_to_strength]) (Or.inr (Or.inl rfl))

/-- C10: for every score and every integer rank outside {1,2,3,4}, the
gap computation does not fail: `RANK_WEIGHT.get(int(rank), 1)` silently
falls back to weight 1, so the gap equals the gap rank 4 would produce
for the same score. -/
theorem C10_unknown_rank_weight (s : ℚ) (rank : ℤ)
    (h : ¬(rank = 1 ∨ rank = 2 ∨ rank = 3 ∨ rank = 4)) :
    compute_priority_gap s rank = compute_priority_gap s 4 := by
  push_neg at h
  obtain ⟨h1, h2, h3, h4⟩ := h
  simp [compute_priority_gap, RANK_WEIGHT, h1, h2, h3, h4]

/-- Witness for C10_unknown_rank_weight at rank 9, score 2. -/
theorem C10_unknown_rank_weight_witness :
    compute_priority_gap 2 9 = compute_priority_gap 2 4 :=
  C10_unknown_rank_weight 2 9 (by decide)

/-! ## Helper lemmas on the exception monad and the normaliser -/

theorem exceptBind_ok {α β : Type} {e : Except PyErr α} {f : α → Except PyErr β}
    {b : β} (h : e >>= f = .ok b) : ∃ a, e = .ok a ∧ f a = .ok b := by
  cases e with
  | ok a => exact ⟨a, rfl, h⟩
  | error err => simp [Bind.bind, Except.bind] at h

theorem pyStrip_empty : pyStrip "" = "" := rfl

theorem guard4_length (r : Option (List ℤ)) (dflt : List ℤ)
    (hd : dflt.length = 4) : (guard4 r dflt).length = 4 := by
  cases r with
  | none => simp [guard4, hd]
  | some xs =>
    simp only [guard4]
    split
    · exact hd
    · next hcond =>
        push_neg at hcond
        exact hcond.2

/-- `_fallback_guess` never produces ranks. -/
theorem fallback_guess_no_ranks (data : PyDict) (pillar : String)
    (res : Option (List ℤ) × Option (List ℤ))
    (h : fallback_guess data pillar = .ok res) : res.2 = Option.none := by
  unfold fallback_guess at h
  obtain ⟨r1, _, h⟩ := exceptBind_ok h
  obtain ⟨r2, _, h⟩ := exceptBind_ok h
  obtain ⟨r3, _, h⟩ := exceptBind_ok h
  obtain ⟨r4, _, h⟩ := exceptBind_ok h
  simp only [List.length_cons, List.length_nil, pure, Except.pure,
    Except.ok.injEq] at h
  rw [← h]
  rfl

/-- Inversion of the per-pillar normaliser body. -/
theorem normalizePillar_ok_parts (data : PyDict) (pillar : String)
    (res : List ℤ × List ℤ) (h : normalizePillar data pillar = .ok res) :
    ∃ rNew rOld rFb,
      try_new_shape data pillar = .ok rNew ∧
      try_legacy_shape data pillar = .ok rOld ∧
      fallback_guess data pillar = .ok rFb ∧
      res = (guard4 (pyOrList (pyOrList rNew.1 rOld.1) rFb.1) [0, 0, 0, 0],
             guard4 (pyOrList (pyOrList rNew.2 rOld.2) rFb.2) [1, 2, 3, 4]) := by
  unfold normalizePillar at h
  obtain ⟨a, ha, h⟩ := exceptBind_ok h
  obtain ⟨b, hb, h⟩ := exceptBind_ok h
  obtain ⟨c, hc, h⟩ := exceptBind_ok h
  refine ⟨a, b, c, ha, hb, hc, ?_⟩
  simp only [pure, Except.pure, Except.ok.injEq] at h
  exact h.symm

/-- Output lists of the per-pillar normaliser always have length 4. -/
theorem normalizePillar_lengths (data : PyDict) (pillar : String)
    (res : List ℤ × List ℤ) (h : normalizePillar data pillar = .ok res) :
    res.1.length = 4 ∧ res.2.length = 4 := by
  obtain ⟨a, b, c, _, _, _, hres⟩ := normalizePillar_ok_parts data pillar res h
  rw [hres]
  exact ⟨guard4_length _ _ rfl, guard4_length _ _ rfl⟩

/-- Inversion of `normalize_inputs`: the output dicts list the four
pillars in order, keyed to the per-pillar results. -/
theorem normalize_inputs_shape (data : PyDict)
    (res : List (String × List ℤ) × List (String × List ℤ))
    (h : normalize_inputs data = .ok res) :
    ∃ hp wp sp op,
      normalizePillar data "health" = .ok hp ∧
      normalizePillar data "wealth" = .ok wp ∧
      normalizePillar data "self" = .ok sp ∧
      normalizePillar data "social" = .ok op ∧
      res = ([("health", hp.1), ("wealth", wp.1), ("self", sp.1), ("social", op.1)],
             [("health", hp.2), ("wealth", wp.2), ("self", sp.2), ("social", op.2)]) := by
  unfold normalize_inputs at h
  obtain ⟨a, ha, h⟩ := exceptBind_ok h
  obtain ⟨b, hb, h⟩ := exceptBind_ok h
  obtain ⟨c, hc, h⟩ := exceptBind_ok h
  obtain ⟨d, hd, h⟩ := exceptBind_ok h
  refine ⟨a, b, c, d, ha, hb, hc, hd, ?_⟩
  simp only [pure, Except.pure, Except.ok.injEq] at h
  exact h.symm

/-- C2: the spec claims the normaliser can never raise on malformed
input.  The code contradicts this (while the module header documents
the parsing as tolerant and `_as_int_list` catches everything): the
uncaught `int(float(v))` of the legacy dict shape raises `ValueError`
on a non-numeric string, iterating a truthy non-list under
`_as_int_list` raises `TypeError`, and a non-dict under `"scores"`
raises `AttributeError` from `.get`. -/
theorem C2_normalize_raises :
    normalize_inputs
        [("scores", .dict [("health", .dict [("Physical Energy", .str "abc")])])]
      = .error .valueError ∧
    normalize_inputs [("ratings", .dict [("health", .int 5)])]
      = .error .typeError ∧
    normalize_inputs [("scores", .list [.int 1, .int 2])]
      = .error .attributeError ∧
    normalize_inputs [("health_1", .str "zz")] = .error .valueError := by
  exact ⟨rfl, rfl, rfl, rfl⟩

/-- C5: the claim says every JSON body with a missing, empty or
invalid email is rejected at the boundary (non-2xx) before any report
computation.  That is the evident intent of `_normalise_payload` and
the handler's re-check — but the committed app.py cannot deliver it:
its mis-indented debug lines 217-218 are an `IndentationError`, the
module never imports, and the `/generate` endpoint never answers any
request, 422 included.  This theorem evaluates the intended handler
(the embedding with the two broken lines deleted, see
`generate_report`): every JSON-object body whose `email` field is
missing, null, empty or whitespace-only, or a string without `"@"`,
gets `HTTPException(422)` and is never handed to
`_call_report_builder`, so no report artifact is produced (in this
model, an `.ok` result is exactly the event "report computation
reached").  The claim thus describes the intended behaviour that the
indentation slip broke — a code bug, not a spec error. -/
theorem C5_bad_email_rejected (payload : PyDict)
    (h : payload.lookup "email" = Option.none ∨
         payload.lookup "email" = some PyVal.none ∨
         ∃ s, payload.lookup "email" = some (PyVal.str s) ∧
           (pyStrip s = "" ∨ hasAtSign (pyStrip s) = false)) :
    generate_report payload = .error 422 := by
  have hnorm : app_normalise_payload payload = .error (.httpError 422) := by
    rcases h with h | h | ⟨s, hs, hbad⟩
    · have he : extractEmail payload = .ok "" := by
        simp [extractEmail, dictGetD, h, pyTruthy, pyStrip_empty]
      simp [app_normalise_payload, he, Bind.bind, Except.bind]
    · have he : extractEmail payload = .ok "" := by
        simp [extractEmail, dictGetD, h, pyTruthy, pyStrip_empty]
      simp [app_normalise_payload, he, Bind.bind, Except.bind]
    · by_cases hse : s = ""
      · have he : extractEmail payload = .ok "" := by
          simp [extractEmail, dictGetD, hs, hse, pyTruthy, pyStrip_empty]
        simp [app_normalise_payload, he, Bind.bind, Except.bind]
      · have he : extractEmail payload = .ok (pyStrip s) := by
          simp [extractEmail, dictGetD, hs, pyTruthy, hse]
        rcases hbad with hb | hb <;>
          simp [app_normalise_payload, he, hb, Bind.bind, Except.bind]
  simp [generate_report, hnorm]

/-- Witness for C5_bad_email_rejected: a payload without an email
field gets HTTP 422. -/
theorem C5_bad_email_rejected_witness :
    generate_report [("name", .str "x")] = .error 422 :=
  C5_bad_email_rejected [("name", .str "x")] (Or.inl rfl)

/-- When the legacy shape carries a valid pillar-level rank (int value
in 1..4 under `data["ranks"][pillar]`), `_try_legacy_shape` produces
the constant per-subtheme ranks `[2, 2, 2, 2]`. -/
theorem try_legacy_ranks_broadcast (data : PyDict) (pillar : String)
    (m : PyDict) (n : ℤ) (res : Option (List ℤ) × Option (List ℤ))
    (hranks : dictGetD data "ranks" (.dict []) = .dict m)
    (hpr : pyInt (dictGetD m pillar .none) = .ok n)
    (hn : n = 1 ∨ n = 2 ∨ n = 3 ∨ n = 4)
    (h : try_legacy_shape data pillar = .ok res) :
    res.2 = some [2, 2, 2, 2] := by
  unfold try_legacy_shape at h
  obtain ⟨scores, hsc, h⟩ := exceptBind_ok h
  obtain ⟨ratings, hra, h⟩ := exceptBind_ok h
  rw [hranks] at h
  obtain ⟨pr, hpr2, h⟩ := exceptBind_ok h
  simp only [pyGetD, Except.ok.injEq] at hpr2
  subst hpr2
  simp only [pure, Except.pure, Except.ok.injEq] at h
  subst h
  cases hd : dictGetD m pillar .none <;> rw [hd] at hpr
  case none => simp [pyInt] at hpr
  all_goals
    simp only [legacyRanks, hpr]
    rcases hn with rfl | rfl | rfl | rfl <;> simp

/-- C3 (amended): for every payload that supplies, for a pillar, a
single valid pillar-level rank in {1,2,3,4} and no per-subtheme ranks,
the normaliser does not fail, but it does not broadcast that rank
value: it assigns the fixed neutral ranks `[2, 2, 2, 2]` to the
pillar's four sub-themes, whatever the supplied rank was. -/
theorem C3_pillar_rank_broadcast (data : PyDict) (pillar : String)
    (m : PyDict) (n : ℤ) (rn : Option (List ℤ)) (res : List ℤ × List ℤ)
    (hnew : try_new_shape data pillar = .ok (rn, Option.none))
    (hranks : dictGetD data "ranks" (.dict []) = .dict m)
    (hpr : pyInt (dictGetD m pillar .none) = .ok n)
    (hn : n = 1 ∨ n = 2 ∨ n = 3 ∨ n = 4)
    (hres : normalizePillar data pillar = .ok res) :
    res.2 = [2, 2, 2, 2] := by
  obtain ⟨a, b, c, ha, hb, hc, hres2⟩ := normalizePillar_ok_parts data pillar res hres
  have ha2 : a = (rn, Option.none) := by
    rw [hnew] at ha
    exact (Except.ok.inj ha).symm
  have hb2 : b.2 = some [2, 2, 2, 2] :=
    try_legacy_ranks_broadcast data pillar m n b hranks hpr hn hb
  have hc2 : c.2 = Option.none := fallback_guess_no_ranks data pillar c hc
  rw [hres2, ha2, hb2, hc2]
  simp [pyOrList, guard4]

/-- Witness for C3_pillar_rank_broadcast at the payload
`{"ranks": {"health": 3}}`. -/
theorem C3_pillar_rank_broadcast_witness :
    (([0, 0, 0, 0], [2, 2, 2, 2]) : List ℤ × List ℤ).2 = [2, 2, 2, 2] :=
  C3_pillar_rank_broadcast [("ranks", .dict [("health", .int 3)])] "health"
    [("health", .int 3)] 3 Option.none ([0, 0, 0, 0], [2, 2, 2, 2])
    rfl rfl rfl (by decide) rfl

/-- C3 (counterexample): the claim says the single pillar-level rank
value is broadcast to all four sub-themes.  At the payload
`{"ranks": {"health": 1}}` the normaliser returns ranks `[2, 2, 2, 2]`
for health, not the broadcast `[1, 1, 1, 1]`. -/
theorem C3_counterexample :
    normalize_inputs [("ranks", .dict [("health", .int 1)])]
      = .ok ([("health", [0, 0, 0, 0]), ("wealth", [0, 0, 0, 0]),
              ("self", [0, 0, 0, 0]), ("social", [0, 0, 0, 0])],
             [("health", [2, 2, 2, 2]), ("wealth", [1, 2, 3, 4]),
              ("self", [1, 2, 3, 4]), ("social", [1, 2, 3, 4])]) ∧
    ([2, 2, 2, 2] : List ℤ) ≠ [1, 1, 1, 1] :=
  ⟨rfl, by decide⟩

/-- C4 (amended): whenever the normaliser returns, its output covers
exactly the 4 pillars in order with exactly 4 sub-theme entries each in
ratings and ranks; but scores and ranks are NOT range-checked or
clamped — whatever integers were parsed pass through (see the
counterexample; an out-of-range rank merely falls back to weight 1
when the gap is computed). -/
theorem C4_shape_no_clamp (data : PyDict)
    (res : List (String × List ℤ) × List (String × List ℤ))
    (h : normalize_inputs data = .ok res) :
    res.1.map Prod.fst = PILLARS ∧ res.2.map Prod.fst = PILLARS ∧
    (∀ e ∈ res.1, e.2.length = 4) ∧ (∀ e ∈ res.2, e.2.length = 4) := by
  obtain ⟨hp, wp, sp, op, h1, h2, h3, h4, hres⟩ := normalize_inputs_shape data res h
  obtain ⟨l1, l1r⟩ := normalizePillar_lengths data "health" hp h1
  obtain ⟨l2, l2r⟩ := normalizePillar_lengths data "wealth" wp h2
  obtain ⟨l3, l3r⟩ := normalizePillar_lengths data "self" sp h3
  obtain ⟨l4, l4r⟩ := normalizePillar_lengths data "social" op h4
  subst hres
  refine ⟨rfl, rfl, ?_, ?_⟩ <;>
  · intro e he
    simp only [List.mem_cons, List.not_mem_nil, or_false] at he
    rcases he with rfl | rfl | rfl | rfl <;> assumption

/-- Witness for C4_shape_no_clamp at the empty payload. -/
theorem C4_shape_no_clamp_witness :
    (([("health", [0, 0, 0, 0]), ("wealth", [0, 0, 0, 0]),
       ("self", [0, 0, 0, 0]), ("social", [0, 0, 0, 0])],
      [("health", [1, 2, 3, 4]), ("wealth", [1, 2, 3, 4]),
       ("self", [1, 2, 3, 4]), ("social", [1, 2, 3, 4])]) :
        List (String × List ℤ) × List (String × List ℤ)).1.map Prod.fst
      = PILLARS ∧
    (([("health", [0, 0, 0, 0]), ("wealth", [0, 0, 0, 0]),
       ("self", [0, 0, 0, 0]), ("social", [0, 0, 0, 0])],
      [("health", [1, 2, 3, 4]), ("wealth", [1, 2, 3, 4]),
       ("self", [1, 2, 3, 4]), ("social", [1, 2, 3, 4])]) :
        List (String × List ℤ) × List (String × List ℤ)).2.map Prod.fst
      = PILLARS ∧
    (∀ e ∈ (([("health", [0, 0, 0, 0]), ("wealth", [0, 0, 0, 0]),
       ("self", [0, 0, 0, 0]), ("social", [0, 0, 0, 0])],
      [("health", [1, 2, 3, 4]), ("wealth", [1, 2, 3, 4]),
       ("self", [1, 2, 3, 4]), ("social", [1, 2, 3, 4])]) :
        List (String × List ℤ) × List (String × List ℤ)).1, e.2.length = 4) ∧
    (∀ e ∈ (([("health", [0, 0, 0, 0]), ("wealth", [0, 0, 0, 0]),
       ("self", [0, 0, 0, 0]), ("social", [0, 0, 0, 0])],
      [("health", [1, 2, 3, 4]), ("wealth", [1, 2, 3, 4]),
       ("self", [1, 2, 3, 4]), ("social", [1, 2, 3, 4])]) :
        List (String × List ℤ) × List (String × List ℤ)).2, e.2.length = 4) :=
  C4_shape_no_clamp []
    ([("health", [0, 0, 0, 0]), ("wealth", [0, 0, 0, 0]),
      ("self", [0, 0, 0, 0]), ("social", [0, 0, 0, 0])],
     [("health", [1, 2, 3, 4]), ("wealth", [1, 2, 3, 4]),
      ("self", [1, 2, 3, 4]), ("social", [1, 2, 3, 4])]) rfl

/-- C4 (counterexample): the claim says every output score lies in
[0,25] and every output rank lies in {1,2,3,4}, out-of-range ranks
being clamped.  At the payload with per-subtheme ranks `[9, 1, 2, 3]`
and a rating 7 the normaliser passes both through unchanged: the rank
9 stays (no clamping), and the raw score of rating 7 is
`rating_to_strength 7 = 35 > 25`. -/
theorem C4_counterexample :
    normalize_inputs
        [("ratings", .dict [("health", .list [.int 7, .int 0, .int 0, .int 0])]),
         ("ranks_per_subtheme", .dict [("health", .list [.int 9, .int 1, .int 2, .int 3])])]
      = .ok ([("health", [7, 0, 0, 0]), ("wealth", [0, 0, 0, 0]),
              ("self", [0, 0, 0, 0]), ("social", [0, 0, 0, 0])],
             [("health", [9, 1, 2, 3]), ("wealth", [1, 2, 3, 4]),
              ("self", [1, 2, 3, 4]), ("social", [1, 2, 3, 4])]) ∧
    ¬((9 : ℤ) = 1 ∨ (9 : ℤ) = 2 ∨ (9 : ℤ) = 3 ∨ (9 : ℤ) = 4) ∧
    ¬(rating_to_strength 7 ≤ 25) := by
  refine ⟨rfl, by decide, by norm_num [rating_to_strength]⟩

theorem asIntElem_int (n : ℤ) : asIntElem (.int n) = n := rfl

theorem as_int_list_ints (ns : List ℤ) :
    as_int_list (.list (ns.map PyVal.int)) = .ok ns := by
  have hmap : ∀ ms : List ℤ, (ms.map PyVal.int).map asIntElem = ms := by
    intro ms
    induction ms with
    | nil => rfl
    | cons y ys ih => simp [asIntElem_int, ih]
  have hmap2 : ∀ ms : List ℤ, ms.map (asIntElem ∘ PyVal.int) = ms := by
    intro ms
    induction ms with
    | nil => rfl
    | cons y ys ih => simp [Function.comp, asIntElem_int, ih]
  cases ns with
  | nil => rfl
  | cons x tl =>
    simp [as_int_list, pyTruthy, pyIter, Except.map, asIntElem_int, hmap, hmap2]

theorem lookup_map_int_list (l : List (String × List ℤ)) (k : String) :
    (l.map (fun pr => (pr.1, PyVal.list (pr.2.map PyVal.int)))).lookup k
      = (l.lookup k).map (fun v => PyVal.list (v.map PyVal.int)) := by
  induction l with
  | nil => rfl
  | cons hd tl ih =>
    obtain ⟨k1, v1⟩ := hd
    simp only [List.map_cons, List.lookup]
    cases hk : k == k1 <;> simp [hk, ih]

/-- Evaluating the per-pillar normaliser on the canonical re-encoded
payload returns the encoded ratings and ranks unchanged. -/
theorem normalizePillar_canonical (ratings ranks : List (String × List ℤ))
    (pillar : String) (r k : List ℤ)
    (hr : ratings.lookup pillar = some r) (hk : ranks.lookup pillar = some k)
    (hrlen : r.length = 4) (hklen : k.length = 4)
    (hf1 : dictGetD (canonicalPayload ratings ranks) (pillar ++ "_1") .none = .none)
    (hf2 : dictGetD (canonicalPayload ratings ranks) (pillar ++ "_2") .none = .none)
    (hf3 : dictGetD (canonicalPayload ratings ranks) (pillar ++ "_3") .none = .none)
    (hf4 : dictGetD (canonicalPayload ratings ranks) (pillar ++ "_4") .none = .none) :
    normalizePillar (canonicalPayload ratings ranks) pillar = .ok (r, k) := by
  have hrne : r.isEmpty = false := by
    cases r with
    | nil => simp at hrlen
    | cons a tl => rfl
  have hkne : k.isEmpty = false := by
    cases k with
    | nil => simp at hklen
    | cons a tl => rfl
  have hratings : dictGetD (canonicalPayload ratings ranks) "ratings" .none
      = .dict (ratings.map (fun pr => (pr.1, .list (pr.2.map PyVal.int)))) := rfl
  have hranks2 : dictGetD (canonicalPayload ratings ranks) "ranks_per_subtheme" .none
      = .dict (ranks.map (fun pr => (pr.1, .list (pr.2.map PyVal.int)))) := rfl
  have hscores : dictGetD (canonicalPayload ratings ranks) "scores" (.dict [])
      = .dict [] := rfl
  have hranksOld : dictGetD (canonicalPayload ratings ranks) "ranks" (.dict [])
      = .dict [] := rfl
  have hgr : dictGetD (ratings.map (fun pr => (pr.1, PyVal.list (pr.2.map PyVal.int))))
      pillar .none = .list (r.map PyVal.int) := by
    simp [dictGetD, lookup_map_int_list, hr]
  have hgk : dictGetD (ranks.map (fun pr => (pr.1, PyVal.list (pr.2.map PyVal.int))))
      pillar .none = .list (k.map PyVal.int) := by
    simp [dictGetD, lookup_map_int_list, hk]
  have hnew : try_new_shape (canonicalPayload ratings ranks) pillar
      = .ok (some r, some k) := by
    simp [try_new_shape, newShapeList, hratings, hranks2, hgr, hgk,
      as_int_list_ints, hrlen, hklen, Bind.bind, Except.bind, pure, Except.pure]
  have hleg : try_legacy_shape (canonicalPayload ratings ranks) pillar
      = .ok (Option.none, Option.none) := by
    simp [try_legacy_shape, hscores, hranksOld, pyGetD, dictGetD, List.lookup,
      legacyRatings, legacyRanks, Bind.bind, Except.bind, pure, Except.pure]
  have hfb : fallback_guess (canonicalPayload ratings ranks) pillar
      = .ok (some [0, 0, 0, 0], Option.none) := by
    simp [fallback_guess, looseVal, hf1, hf2, hf3, hf4, isEmptyStrOrNone,
      Bind.bind, Except.bind, pure, Except.pure]
  simp [normalizePillar, hnew, hleg, hfb, Bind.bind, Except.bind, pure,
    Except.pure, pyOrList, guard4, hrne, hrlen, hkne, hklen]

/-- C9: the normaliser is idempotent: re-encoding its canonical output
(per-pillar ratings and per-subtheme ranks) as a new-shape payload and
feeding it back through `normalize_inputs` returns exactly the same
ratings and ranks again. -/
theorem C9_idempotent (data : PyDict)
    (res : List (String × List ℤ) × List (String × List ℤ))
    (h : normalize_inputs data = .ok res) :
    normalize_inputs (canonicalPayload res.1 res.2) = .ok res := by
  obtain ⟨hp, wp, sp, op, h1, h2, h3, h4, hres⟩ := normalize_inputs_shape data res h
  obtain ⟨l1, l1r⟩ := normalizePillar_lengths data "health" hp h1
  obtain ⟨l2, l2r⟩ := normalizePillar_lengths data "wealth" wp h2
  obtain ⟨l3, l3r⟩ := normalizePillar_lengths data "self" sp h3
  obtain ⟨l4, l4r⟩ := normalizePillar_lengths data "social" op h4
  subst hres
  have c1 := normalizePillar_canonical
    [("health", hp.1), ("wealth", wp.1), ("self", sp.1), ("social", op.1)]
    [("health", hp.2), ("wealth", wp.2), ("self", sp.2), ("social", op.2)]
    "health" hp.1 hp.2 rfl rfl l1 l1r rfl rfl rfl rfl
  have c2 := normalizePillar_canonical
    [("health", hp.1), ("wealth", wp.1), ("self", sp.1), ("social", op.1)]
    [("health", hp.2), ("wealth", wp.2), ("self", sp.2), ("social", op.2)]
    "wealth" wp.1 wp.2 rfl rfl l2 l2r rfl rfl rfl rfl
  have c3 := normalizePillar_canonical
    [("health", hp.1), ("wealth", wp.1), ("self", sp.1), ("social", op.1)]
    [("health", hp.2), ("wealth", wp.2), ("self", sp.2), ("social", op.2)]
    "self" sp.1 sp.2 rfl rfl l3 l3r rfl rfl rfl rfl
  have c4 := normalizePillar_canonical
    [("health", hp.1), ("wealth", wp.1), ("self", sp.1), ("social", op.1)]
    [("health", hp.2), ("wealth", wp.2), ("self", sp.2), ("social", op.2)]
    "social" op.1 op.2 rfl rfl l4 l4r rfl rfl rfl rfl
  simp [normalize_inputs, c1, c2, c3, c4, Bind.bind, Except.bind, pure, Except.pure]

/-- Witness for C9_idempotent at the empty payload. -/
theorem C9_idempotent_witness :
    normalize_inputs (canonicalPayload
        [("health", [0, 0, 0, 0]), ("wealth", [0, 0, 0, 0]),
         ("self", [0, 0, 0, 0]), ("social", [0, 0, 0, 0])]
        [("health", [1, 2, 3, 4]), ("wealth", [1, 2, 3, 4]),
         ("self", [1, 2, 3, 4]), ("social", [1, 2, 3, 4])])
      = .ok ([("health", [0, 0, 0, 0]), ("wealth", [0, 0, 0, 0]),
              ("self", [0, 0, 0, 0]), ("social", [0, 0, 0, 0])],
             [("health", [1, 2, 3, 4]), ("wealth", [1, 2, 3, 4]),
              ("self", [1, 2, 3, 4]), ("social", [1, 2, 3, 4])]) :=
  C9_idempotent []
    ([("health", [0, 0, 0, 0]), ("wealth", [0, 0, 0, 0]),
      ("self", [0, 0, 0, 0]), ("social", [0, 0, 0, 0])],
     [("health", [1, 2, 3, 4]), ("wealth", [1, 2, 3, 4]),
      ("self", [1, 2, 3, 4]), ("social", [1, 2, 3, 4])]) rfl

theorem pillarGaps_length (r k : List ℤ) :
    (pillarGaps r k).length = min r.length k.length := by
  simp [pillarGaps]

/-- Bound transport over an append. -/
theorem getD_append_forall (xs ys : List ℚ) (P : ℚ → Prop)
    (hx : ∀ j, j < xs.length → P (xs.getD j 0))
    (hy : ∀ j, j < ys.length → P (ys.getD j 0)) :
    ∀ j, j < (xs ++ ys).length → P ((xs ++ ys).getD j 0) := by
  intro j hj
  by_cases hjx : j < xs.length
  · rw [List.getD_append _ _ _ _ hjx]
    exact hx j hjx
  · push_neg at hjx
    rw [List.getD_append_right _ _ _ _ hjx]
    refine hy _ ?_
    simp only [List.length_append] at hj
    omega

/-- A first maximum of the suffix that strictly dominates the whole
prefix is the first maximum of the concatenation, shifted. -/
theorem isFirstMaxAt_append_right (xs ys : List ℚ) (t : ℕ) (v : ℚ)
    (hfm : isFirstMaxAt ys t v)
    (hlt : ∀ j, j < xs.length → xs.getD j 0 < v) :
    isFirstMaxAt (xs ++ ys) (xs.length + t) v := by
  obtain ⟨ht, hv, hpre, hub⟩ := hfm
  refine ⟨by simp only [List.length_append]; omega, ?_, ?_, ?_⟩
  · rw [List.getD_append_right _ _ _ _ (Nat.le_add_right _ _),
      Nat.add_sub_cancel_left]
    exact hv
  · intro j hj
    by_cases hjx : j < xs.length
    · rw [List.getD_append _ _ _ _ hjx]
      exact hlt j hjx
    · push_neg at hjx
      rw [List.getD_append_right _ _ _ _ hjx]
      exact hpre _ (by omega)
  · intro j hj
    by_cases hjx : j < xs.length
    · rw [List.getD_append _ _ _ _ hjx]
      exact le_of_lt (hlt j hjx)
    · push_neg at hjx
      rw [List.getD_append_right _ _ _ _ hjx]
      refine hub _ ?_
      simp only [List.length_append] at hj
      omega

/-- A first maximum of the prefix that dominates the whole suffix is
the first maximum of the concatenation. -/
theorem isFirstMaxAt_append_left (xs ys : List ℚ) (t : ℕ) (v : ℚ)
    (hfm : isFirstMaxAt xs t v)
    (hle : ∀ j, j < ys.length → ys.getD j 0 ≤ v) :
    isFirstMaxAt (xs ++ ys) t v := by
  obtain ⟨ht, hv, hpre, hub⟩ := hfm
  refine ⟨by simp only [List.length_append]; omega, ?_, ?_, ?_⟩
  · rw [List.getD_append _ _ _ _ ht]
    exact hv
  · intro j hj
    rw [List.getD_append _ _ _ _ (by omega)]
    exact hpre j hj
  · exact getD_append_forall xs ys (fun q => q ≤ v) hub hle

/-- The 4-step overall-best fold keeps the first strict maximum among
the four candidate values, provided some candidate beats the seed. -/
theorem sel4_first_max (s e1 e2 e3 e4 : String × ℤ × ℚ)
    (h : s.2.2 < e1.2.2 ∨ s.2.2 < e2.2.2 ∨ s.2.2 < e3.2.2 ∨ s.2.2 < e4.2.2) :
    (selBest (selBest (selBest (selBest s e1) e2) e3) e4 = e1 ∧
      s.2.2 < e1.2.2 ∧ e2.2.2 ≤ e1.2.2 ∧ e3.2.2 ≤ e1.2.2 ∧ e4.2.2 ≤ e1.2.2) ∨
    (selBest (selBest (selBest (selBest s e1) e2) e3) e4 = e2 ∧
      s.2.2 < e2.2.2 ∧ e1.2.2 < e2.2.2 ∧ e3.2.2 ≤ e2.2.2 ∧ e4.2.2 ≤ e2.2.2) ∨
    (selBest (selBest (selBest (selBest s e1) e2) e3) e4 = e3 ∧
      s.2.2 < e3.2.2 ∧ e1.2.2 < e3.2.2 ∧ e2.2.2 < e3.2.2 ∧ e4.2.2 ≤ e3.2.2) ∨
    (selBest (selBest (selBest (selBest s e1) e2) e3) e4 = e4 ∧
      s.2.2 < e4.2.2 ∧ e1.2.2 < e4.2.2 ∧ e2.2.2 < e4.2.2 ∧ e3.2.2 < e4.2.2) := by
  unfold selBest
  split_ifs <;> rcases h with h | h | h | h <;>
    first
      | exact Or.inl ⟨rfl, by linarith, by linarith, by linarith, by linarith⟩
      | exact Or.inr (Or.inl ⟨rfl, by linarith, by linarith, by linarith, by linarith⟩)
      | exact Or.inr (Or.inr (Or.inl ⟨rfl, by linarith, by linarith, by linarith, by linarith⟩))
      | exact Or.inr (Or.inr (Or.inr ⟨rfl, by linarith, by linarith, by linarith, by linarith⟩))
      | (exfalso; linarith)

theorem getD_four_append (g1 g2 g3 g4 : List ℚ)
    (h1 : g1.length = 4) (h2 : g2.length = 4) (h3 : g3.length = 4) (n : ℕ) :
    (g1 ++ g2 ++ g3 ++ g4).getD n 0 =
      if n < 4 then g1.getD n 0
      else if n < 8 then g2.getD (n - 4) 0
      else if n < 12 then g3.getD (n - 8) 0
      else g4.getD (n - 12) 0 := by
  by_cases c1 : n < 4
  · have s1 : (g1 ++ g2 ++ g3 ++ g4).getD n 0 = (g1 ++ g2 ++ g3).getD n 0 :=
      List.getD_append (g1 ++ g2 ++ g3) g4 0 n
        (by simp only [List.length_append]; omega)
    have s2 : (g1 ++ g2 ++ g3).getD n 0 = (g1 ++ g2).getD n 0 :=
      List.getD_append (g1 ++ g2) g3 0 n
        (by simp only [List.length_append]; omega)
    have s3 : (g1 ++ g2).getD n 0 = g1.getD n 0 :=
      List.getD_append g1 g2 0 n (by omega)
    rw [if_pos c1, s1, s2, s3]
  · by_cases c2 : n < 8
    · have s1 : (g1 ++ g2 ++ g3 ++ g4).getD n 0 = (g1 ++ g2 ++ g3).getD n 0 :=
        List.getD_append (g1 ++ g2 ++ g3) g4 0 n
          (by simp only [List.length_append]; omega)
      have s2 : (g1 ++ g2 ++ g3).getD n 0 = (g1 ++ g2).getD n 0 :=
        List.getD_append (g1 ++ g2) g3 0 n
          (by simp only [List.length_append]; omega)
      have s3 : (g1 ++ g2).getD n 0 = g2.getD (n - g1.length) 0 :=
        List.getD_append_right g1 g2 0 n (by omega)
      rw [if_neg c1, if_pos c2, s1, s2, s3, h1]
    · by_cases c3 : n < 12
      · have s1 : (g1 ++ g2 ++ g3 ++ g4).getD n 0 = (g1 ++ g2 ++ g3).getD n 0 :=
          List.getD_append (g1 ++ g2 ++ g3) g4 0 n
            (by simp only [List.length_append]; omega)
        have s2 : (g1 ++ g2 ++ g3).getD n 0 = g3.getD (n - (g1 ++ g2).length) 0 :=
          List.getD_append_right (g1 ++ g2) g3 0 n
            (by simp only [List.length_append]; omega)
        have hl : (g1 ++ g2).length = 8 := by
          simp only [List.length_append]; omega
        rw [if_neg c1, if_neg c2, if_pos c3, s1, s2, hl]
      · have s1 : (g1 ++ g2 ++ g3 ++ g4).getD n 0
            = g4.getD (n - (g1 ++ g2 ++ g3).length) 0 :=
          List.getD_append_right (g1 ++ g2 ++ g3) g4 0 n
            (by simp only [List.length_append]; omega)
        have hl : (g1 ++ g2 ++ g3).length = 12 := by
          simp only [List.length_append]; omega
        rw [if_neg c1, if_neg c2, if_neg c3, s1, hl]

/-- C6 (amended): for every normalized submission (four pillars with
four sub-themes each), the per-pillar entries of `find_top_gaps` point
at the first sub-theme of maximal gap within each pillar; and provided
at least one of the 16 gaps exceeds the seed value -1 (always the case
for in-range scores, whose gaps are ≥ 0), the overall top focus is the
single sub-theme carrying the first maximum, in encounter order
(pillar-major), over all 16 gaps.  Without that proviso the fold
returns its sentinel `("", -1, -1.0)` — the counterexample. -/
theorem C6_top_focus (R1 R2 R3 R4 K1 K2 K3 K4 : List ℤ)
    (hR1 : R1.length = 4) (hR2 : R2.length = 4) (hR3 : R3.length = 4)
    (hR4 : R4.length = 4) (hK1 : K1.length = 4) (hK2 : K2.length = 4)
    (hK3 : K3.length = 4) (hK4 : K4.length = 4)
    (hpos : ∃ n, n < 16 ∧ -1 < (pillarGaps R1 K1 ++ pillarGaps R2 K2 ++
      pillarGaps R3 K3 ++ pillarGaps R4 K4).getD n 0) :
    (find_top_gaps
        [("health", R1), ("wealth", R2), ("self", R3), ("social", R4)]
        [("health", K1), ("wealth", K2), ("self", K3), ("social", K4)]).1
      = [("health", (argmaxFirst (pillarGaps R1 K1) : ℤ),
            (pillarGaps R1 K1).getD (argmaxFirst (pillarGaps R1 K1)) 0),
         ("wealth", (argmaxFirst (pillarGaps R2 K2) : ℤ),
            (pillarGaps R2 K2).getD (argmaxFirst (pillarGaps R2 K2)) 0),
         ("self", (argmaxFirst (pillarGaps R3 K3) : ℤ),
            (pillarGaps R3 K3).getD (argmaxFirst (pillarGaps R3 K3)) 0),
         ("social", (argmaxFirst (pillarGaps R4 K4) : ℤ),
            (pillarGaps R4 K4).getD (argmaxFirst (pillarGaps R4 K4)) 0)] ∧
    isFirstMaxAt (pillarGaps R1 K1) (argmaxFirst (pillarGaps R1 K1))
      ((pillarGaps R1 K1).getD (argmaxFirst (pillarGaps R1 K1)) 0) ∧
    isFirstMaxAt (pillarGaps R2 K2) (argmaxFirst (pillarGaps R2 K2))
      ((pillarGaps R2 K2).getD (argmaxFirst (pillarGaps R2 K2)) 0) ∧
    isFirstMaxAt (pillarGaps R3 K3) (argmaxFirst (pillarGaps R3 K3))
      ((pillarGaps R3 K3).getD (argmaxFirst (pillarGaps R3 K3)) 0) ∧
    isFirstMaxAt (pillarGaps R4 K4) (argmaxFirst (pillarGaps R4 K4))
      ((pillarGaps R4 K4).getD (argmaxFirst (pillarGaps R4 K4)) 0) ∧
    (∃ b t : ℕ, b < 4 ∧ t < 4 ∧
      (find_top_gaps
          [("health", R1), ("wealth", R2), ("self", R3), ("social", R4)]
          [("health", K1), ("wealth", K2), ("self", K3), ("social", K4)]).2
        = (PILLARS.getD b "", (t : ℤ),
           (pillarGaps R1 K1 ++ pillarGaps R2 K2 ++ pillarGaps R3 K3 ++
             pillarGaps R4 K4).getD (4 * b + t) 0) ∧
      isFirstMaxAt (pillarGaps R1 K1 ++ pillarGaps R2 K2 ++
          pillarGaps R3 K3 ++ pillarGaps R4 K4) (4 * b + t)
        ((pillarGaps R1 K1 ++ pillarGaps R2 K2 ++ pillarGaps R3 K3 ++
          pillarGaps R4 K4).getD (4 * b + t) 0)) := by
  set g1 := pillarGaps R1 K1 with hg1
  set g2 := pillarGaps R2 K2 with hg2
  set g3 := pillarGaps R3 K3 with hg3
  set g4 := pillarGaps R4 K4 with hg4
  set t1 := argmaxFirst g1 with ht1d
  set t2 := argmaxFirst g2 with ht2d
  set t3 := argmaxFirst g3 with ht3d
  set t4 := argmaxFirst g4 with ht4d
  set m1 := g1.getD t1 0 with hm1d
  set m2 := g2.getD t2 0 with hm2d
  set m3 := g3.getD t3 0 with hm3d
  set m4 := g4.getD t4 0 with hm4d
  have hl1 : g1.length = 4 := by
    rw [hg1, pillarGaps_length, hR1, hK1]
    exact min_self 4
  have hl2 : g2.length = 4 := by
    rw [hg2, pillarGaps_length, hR2, hK2]
    exact min_self 4
  have hl3 : g3.length = 4 := by
    rw [hg3, pillarGaps_length, hR3, hK3]
    exact min_self 4
  have hl4 : g4.length = 4 := by
    rw [hg4, pillarGaps_length, hR4, hK4]
    exact min_self 4
  have hne1 : g1 ≠ [] := by intro hcon; rw [hcon] at hl1; simp at hl1
  have hne2 : g2 ≠ [] := by intro hcon; rw [hcon] at hl2; simp at hl2
  have hne3 : g3 ≠ [] := by intro hcon; rw [hcon] at hl3; simp at hl3
  have hne4 : g4 ≠ [] := by intro hcon; rw [hcon] at hl4; simp at hl4
  have hfm1 := argmaxFirst_isFirstMax g1 hne1
  have hfm2 := argmaxFirst_isFirstMax g2 hne2
  have hfm3 := argmaxFirst_isFirstMax g3 hne3
  have hfm4 := argmaxFirst_isFirstMax g4 hne4
  have ht1 : t1 < 4 := by have h := hfm1.1; rw [hl1] at h; exact h
  have ht2 : t2 < 4 := by have h := hfm2.1; rw [hl2] at h; exact h
  have ht3 : t3 < 4 := by have h := hfm3.1; rw [hl3] at h; exact h
  have ht4 : t4 < 4 := by have h := hfm4.1; rw [hl4] at h; exact h
  have hassoc : g1 ++ g2 ++ g3 ++ g4 = g1 ++ (g2 ++ (g3 ++ g4)) := by
    simp [List.append_assoc]
  have hunfold : find_top_gaps
      [("health", R1), ("wealth", R2), ("self", R3), ("social", R4)]
      [("health", K1), ("wealth", K2), ("self", K3), ("social", K4)]
      = ([("health", (t1 : ℤ), m1), ("wealth", (t2 : ℤ), m2),
          ("self", (t3 : ℤ), m3), ("social", (t4 : ℤ), m4)],
         selBest (selBest (selBest (selBest ("", -1, -1)
           ("health", (t1 : ℤ), m1)) ("wealth", (t2 : ℤ), m2))
           ("self", (t3 : ℤ), m3)) ("social", (t4 : ℤ), m4)) := rfl
  have hfp2 : (find_top_gaps
      [("health", R1), ("wealth", R2), ("self", R3), ("social", R4)]
      [("health", K1), ("wealth", K2), ("self", K3), ("social", K4)]).2
      = selBest (selBest (selBest (selBest ("", -1, -1)
          ("health", (t1 : ℤ), m1)) ("wealth", (t2 : ℤ), m2))
          ("self", (t3 : ℤ), m3)) ("social", (t4 : ℤ), m4) := by
    rw [hunfold]
  have hsome : (-1 : ℚ) < m1 ∨ (-1 : ℚ) < m2 ∨ (-1 : ℚ) < m3 ∨ (-1 : ℚ) < m4 := by
    obtain ⟨n, hn16, hgt⟩ := hpos
    rw [getD_four_append g1 g2 g3 g4 hl1 hl2 hl3 n] at hgt
    by_cases d1 : n < 4
    · rw [if_pos d1] at hgt
      exact Or.inl (lt_of_lt_of_le hgt (hfm1.2.2.2 n (by omega)))
    · by_cases d2 : n < 8
      · rw [if_neg d1, if_pos d2] at hgt
        exact Or.inr (Or.inl (lt_of_lt_of_le hgt (hfm2.2.2.2 (n - 4) (by omega))))
      · by_cases d3 : n < 12
        · rw [if_neg d1, if_neg d2, if_pos d3] at hgt
          exact Or.inr (Or.inr (Or.inl
            (lt_of_lt_of_le hgt (hfm3.2.2.2 (n - 8) (by omega)))))
        · rw [if_neg d1, if_neg d2, if_neg d3] at hgt
          exact Or.inr (Or.inr (Or.inr
            (lt_of_lt_of_le hgt (hfm4.2.2.2 (n - 12) (by omega)))))
  refine ⟨by rw [hunfold], hfm1, hfm2, hfm3, hfm4, ?_⟩
  have hsel := sel4_first_max ("", -1, -1)
    ("health", (t1 : ℤ), m1) ("wealth", (t2 : ℤ), m2)
    ("self", (t3 : ℤ), m3) ("social", (t4 : ℤ), m4) hsome
  rcases hsel with ⟨heq, fs, f2, f3, f4⟩ | ⟨heq, fs, f1, f3, f4⟩ |
    ⟨heq, fs, f1, f2, f4⟩ | ⟨heq, fs, f1, f2, f3⟩
  · have hb2 : ∀ j, j < g2.length → g2.getD j 0 ≤ m1 :=
      fun j hj => le_trans (hfm2.2.2.2 j hj) f2
    have hb3 : ∀ j, j < g3.length → g3.getD j 0 ≤ m1 :=
      fun j hj => le_trans (hfm3.2.2.2 j hj) f3
    have hb4 : ∀ j, j < g4.length → g4.getD j 0 ≤ m1 :=
      fun j hj => le_trans (hfm4.2.2.2 j hj) f4
    have hflat1 : isFirstMaxAt (g1 ++ (g2 ++ (g3 ++ g4))) t1 m1 :=
      isFirstMaxAt_append_left g1 (g2 ++ (g3 ++ g4)) t1 m1 hfm1
        (getD_append_forall g2 (g3 ++ g4) (fun q => q ≤ m1) hb2
          (getD_append_forall g3 g4 (fun q => q ≤ m1) hb3 hb4))
    have hflat : isFirstMaxAt (g1 ++ g2 ++ g3 ++ g4) (4 * 0 + t1) m1 := by
      rw [hassoc]
      simpa using hflat1
    refine ⟨0, t1, by omega, ht1, ?_, ?_⟩
    · rw [hfp2, heq, ← hflat.2.1]
      rfl
    · rw [← hflat.2.1]
      exact hflat
  · have hb3 : ∀ j, j < g3.length → g3.getD j 0 ≤ m2 :=
      fun j hj => le_trans (hfm3.2.2.2 j hj) f3
    have hb4 : ∀ j, j < g4.length → g4.getD j 0 ≤ m2 :=
      fun j hj => le_trans (hfm4.2.2.2 j hj) f4
    have hp1 : ∀ j, j < g1.length → g1.getD j 0 < m2 :=
      fun j hj => lt_of_le_of_lt (hfm1.2.2.2 j hj) f1
    have hmid : isFirstMaxAt (g2 ++ (g3 ++ g4)) t2 m2 :=
      isFirstMaxAt_append_left g2 (g3 ++ g4) t2 m2 hfm2
        (getD_append_forall g3 g4 (fun q => q ≤ m2) hb3 hb4)
    have hflat1 : isFirstMaxAt (g1 ++ (g2 ++ (g3 ++ g4))) (g1.length + t2) m2 :=
      isFirstMaxAt_append_right g1 (g2 ++ (g3 ++ g4)) t2 m2 hmid hp1
    have hflat : isFirstMaxAt (g1 ++ g2 ++ g3 ++ g4) (4 * 1 + t2) m2 := by
      rw [hassoc]
      have hidx : g1.length + t2 = 4 * 1 + t2 := by omega
      rw [hidx] at hflat1
      exact hflat1
    refine ⟨1, t2, by omega, ht2, ?_, ?_⟩
    · rw [hfp2, heq, ← hflat.2.1]
      rfl
    · rw [← hflat.2.1]
      exact hflat
  · have hb4 : ∀ j, j < g4.length → g4.getD j 0 ≤ m3 :=
      fun j hj => le_trans (hfm4.2.2.2 j hj) f4
    have hp2 : ∀ j, j < g2.length → g2.getD j 0 < m3 :=
      fun j hj => lt_of_le_of_lt (hfm2.2.2.2 j hj) f2
    have hp1 : ∀ j, j < g1.length → g1.getD j 0 < m3 :=
      fun j hj => lt_of_le_of_lt (hfm1.2.2.2 j hj) f1
    have hmid34 : isFirstMaxAt (g3 ++ g4) t3 m3 :=
      isFirstMaxAt_append_left g3 g4 t3 m3 hfm3 hb4
    have hmid : isFirstMaxAt (g2 ++ (g3 ++ g4)) (g2.length + t3) m3 :=
      isFirstMaxAt_append_right g2 (g3 ++ g4) t3 m3 hmid34 hp2
    have hflat1 : isFirstMaxAt (g1 ++ (g2 ++ (g3 ++ g4)))
        (g1.length + (g2.length + t3)) m3 :=
      isFirstMaxAt_append_right g1 (g2 ++ (g3 ++ g4)) (g2.length + t3) m3 hmid hp1
    have hflat : isFirstMaxAt (g1 ++ g2 ++ g3 ++ g4) (4 * 2 + t3) m3 := by
      rw [hassoc]
      have hidx : g1.length + (g2.length + t3) = 4 * 2 + t3 := by omega
      rw [hidx] at hflat1
      exact hflat1
    refine ⟨2, t3, by omega, ht3, ?_, ?_⟩
    · rw [hfp2, heq, ← hflat.2.1]
      rfl
    · rw [← hflat.2.1]
      exact hflat
  · have hp3 : ∀ j, j < g3.length → g3.getD j 0 < m4 :=
      fun j hj => lt_of_le_of_lt (hfm3.2.2.2 j hj) f3
    have hp2 : ∀ j, j < g2.length → g2.getD j 0 < m4 :=
      fun j hj => lt_of_le_of_lt (hfm2.2.2.2 j hj) f2
    have hp1 : ∀ j, j < g1.length → g1.getD j 0 < m4 :=
      fun j hj => lt_of_le_of_lt (hfm1.2.2.2 j hj) f1
    have hmid34 : isFirstMaxAt (g3 ++ g4) (g3.length + t4) m4 :=
      isFirstMaxAt_append_right g3 g4 t4 m4 hfm4 hp3
    have hmid : isFirstMaxAt (g2 ++ (g3 ++ g4))
        (g2.length + (g3.length + t4)) m4 :=
      isFirstMaxAt_append_right g2 (g3 ++ g4) (g3.length + t4) m4 hmid34 hp2
    have hflat1 : isFirstMaxAt (g1 ++ (g2 ++ (g3 ++ g4)))
        (g1.length + (g2.length + (g3.length + t4))) m4 :=
      isFirstMaxAt_append_right g1 (g2 ++ (g3 ++ g4))
        (g2.length + (g3.length + t4)) m4 hmid hp1
    have hflat : isFirstMaxAt (g1 ++ g2 ++ g3 ++ g4) (4 * 3 + t4) m4 := by
      rw [hassoc]
      have hidx : g1.length + (g2.length + (g3.length + t4)) = 4 * 3 + t4 := by
        omega
      rw [hidx] at hflat1
      exact hflat1
    refine ⟨3, t4, by omega, ht4, ?_, ?_⟩
    · rw [hfp2, heq, ← hflat.2.1]
      rfl
    · rw [← hflat.2.1]
      exact hflat

/-- Witness for C6_top_focus: the all-zero submission with default
ranks satisfies the hypotheses (its first gap is 20 > -1). -/
theorem C6_top_focus_witness :
    (find_top_gaps
        [("health", [0, 0, 0, 0]), ("wealth", [0, 0, 0, 0]),
         ("self", [0, 0, 0, 0]), ("social", [0, 0, 0, 0])]
        [("health", [1, 2, 3, 4]), ("wealth", [1, 2, 3, 4]),
         ("self", [1, 2, 3, 4]), ("social", [1, 2, 3, 4])]).1
      = [("health", (argmaxFirst (pillarGaps [0, 0, 0, 0] [1, 2, 3, 4]) : ℤ),
            (pillarGaps [0, 0, 0, 0] [1, 2, 3, 4]).getD
              (argmaxFirst (pillarGaps [0, 0, 0, 0] [1, 2, 3, 4])) 0),
         ("wealth", (argmaxFirst (pillarGaps [0, 0, 0, 0] [1, 2, 3, 4]) : ℤ),
            (pillarGaps [0, 0, 0, 0] [1, 2, 3, 4]).getD
              (argmaxFirst (pillarGaps [0, 0, 0, 0] [1, 2, 3, 4])) 0),
         ("self", (argmaxFirst (pillarGaps [0, 0, 0, 0] [1, 2, 3, 4]) : ℤ),
            (pillarGaps [0, 0, 0, 0] [1, 2, 3, 4]).getD
              (argmaxFirst (pillarGaps [0, 0, 0, 0] [1, 2, 3, 4])) 0),
         ("social", (argmaxFirst (pillarGaps [0, 0, 0, 0] [1, 2, 3, 4]) : ℤ),
            (pillarGaps [0, 0, 0, 0] [1, 2, 3, 4]).getD
              (argmaxFirst (pillarGaps [0, 0, 0, 0] [1, 2, 3, 4])) 0)] :=
  (C6_top_focus [0, 0, 0, 0] [0, 0, 0, 0] [0, 0, 0, 0] [0, 0, 0, 0]
    [1, 2, 3, 4] [1, 2, 3, 4] [1, 2, 3, 4] [1, 2, 3, 4]
    rfl rfl rfl rfl rfl rfl rfl rfl
    ⟨0, by omega, by
      norm_num [pillarGaps, compute_priority_gap, RANK_WEIGHT]⟩).1

/-- C6 (counterexample): the claim says the overall top focus is the
sub-theme with the maximum gap across all 16.  Normalising the
reachable payload with every rating 7 (scores are not clamped) gives
default ranks and every gap negative; the maximum gap across the 16 is
-2 (first attained at health, index 3), yet `find_top_gaps` returns
the untouched sentinel `("", -1, -1.0)` as the overall focus, which
names no pillar and does not carry the maximum gap. -/
theorem C6_counterexample :
    normalize_inputs
        [("ratings", .dict [("health", .list [.int 7, .int 7, .int 7, .int 7]),
                            ("wealth", .list [.int 7, .int 7, .int 7, .int 7]),
                            ("self", .list [.int 7, .int 7, .int 7, .int 7]),
                            ("social", .list [.int 7, .int 7, .int 7, .int 7])])]
      = .ok ([("health", [7, 7, 7, 7]), ("wealth", [7, 7, 7, 7]),
              ("self", [7, 7, 7, 7]), ("social", [7, 7, 7, 7])],
             [("health", [1, 2, 3, 4]), ("wealth", [1, 2, 3, 4]),
              ("self", [1, 2, 3, 4]), ("social", [1, 2, 3, 4])]) ∧
    (find_top_gaps
        [("health", [7, 7, 7, 7]), ("wealth", [7, 7, 7, 7]),
         ("self", [7, 7, 7, 7]), ("social", [7, 7, 7, 7])]
        [("health", [1, 2, 3, 4]), ("wealth", [1, 2, 3, 4]),
         ("self", [1, 2, 3, 4]), ("social", [1, 2, 3, 4])]).2
      = ("", -1, -1) ∧
    (pillarGaps [7, 7, 7, 7] [1, 2, 3, 4]).getD 3 0 = -2 ∧
    (∀ n, n < 16 →
      (pillarGaps [7, 7, 7, 7] [1, 2, 3, 4] ++ pillarGaps [7, 7, 7, 7] [1, 2, 3, 4] ++
        pillarGaps [7, 7, 7, 7] [1, 2, 3, 4] ++
        pillarGaps [7, 7, 7, 7] [1, 2, 3, 4]).getD n 0 ≤ -2) ∧
    ¬ ("" ∈ PILLARS) ∧ ((-1 : ℚ) ≠ -2) := by
  have hg : pillarGaps [7, 7, 7, 7] [1, 2, 3, 4] = [-8, -6, -4, -2] := by
    norm_num [pillarGaps, compute_priority_gap, RANK_WEIGHT]
  refine ⟨rfl, ?_, ?_, ?_, by simp [PILLARS], by norm_num⟩
  · have l1 : lookupPillar [("health", ([7, 7, 7, 7] : List ℤ)),
        ("wealth", [7, 7, 7, 7]), ("self", [7, 7, 7, 7]),
        ("social", [7, 7, 7, 7])] "health" = [7, 7, 7, 7] := rfl
    have l2 : lookupPillar [("health", ([7, 7, 7, 7] : List ℤ)),
        ("wealth", [7, 7, 7, 7]), ("self", [7, 7, 7, 7]),
        ("social", [7, 7, 7, 7])] "wealth" = [7, 7, 7, 7] := rfl
    have l3 : lookupPillar [("health", ([7, 7, 7, 7] : List ℤ)),
        ("wealth", [7, 7, 7, 7]), ("self", [7, 7, 7, 7]),
        ("social", [7, 7, 7, 7])] "self" = [7, 7, 7, 7] := rfl
    have l4 : lookupPillar [("health", ([7, 7, 7, 7] : List ℤ)),
        ("wealth", [7, 7, 7, 7]), ("self", [7, 7, 7, 7]),
        ("social", [7, 7, 7, 7])] "social" = [7, 7, 7, 7] := rfl
    have m1 : lookupPillar [("health", ([1, 2, 3, 4] : List ℤ)),
        ("wealth", [1, 2, 3, 4]), ("self", [1, 2, 3, 4]),
        ("social", [1, 2, 3, 4])] "health" = [1, 2, 3, 4] := rfl
    have m2 : lookupPillar [("health", ([1, 2, 3, 4] : List ℤ)),
        ("wealth", [1, 2, 3, 4]), ("self", [1, 2, 3, 4]),
        ("social", [1, 2, 3, 4])] "wealth" = [1, 2, 3, 4] := rfl
    have m3 : lookupPillar [("health", ([1, 2, 3, 4] : List ℤ)),
        ("wealth", [1, 2, 3, 4]), ("self", [1, 2, 3, 4]),
        ("social", [1, 2, 3, 4])] "self" = [1, 2, 3, 4] := rfl
    have m4 : lookupPillar [("health", ([1, 2, 3, 4] : List ℤ)),
        ("wealth", [1, 2, 3, 4]), ("self", [1, 2, 3, 4]),
        ("social", [1, 2, 3, 4])] "social" = [1, 2, 3, 4] := rfl
    have ha : argmaxFirst [-8, -6, -4, -2] = 3 := by
      norm_num [argmaxFirst, argmaxAux]
    simp only [find_top_gaps, PILLARS, List.foldl, l1, l2, l3, l4,
      m1, m2, m3, m4, hg, ha]
    norm_num
  · rw [hg]
    rfl
  · rw [hg]
    intro n hn
    interval_cases n <;> norm_num

end LifeAlignment
